import Mathlib

/-!
# Verification of `vix_alert.py`

A shallow embedding of the single-file program `src/vix_alert.py`:
it downloads a VIX closing-price series (with retries), computes a
non-bias-adjusted EWMA (pandas `ewm(alpha, adjust=False).mean()`),
joins raw and smoothed series, drops undefined rows, classifies the
latest observation, formats an alert message, and sends it via
Telegram (with retries); the orchestrator `main` maps outcomes to
process exit codes 0 / 1 / 2.

Modelling conventions:
  * Python floats are modelled as exact rationals (`ℚ`); a pandas NaN
    (an undefined cell) is modelled as `none` in `Option ℚ`.
  * Dates are opaque strings (the code only ever formats the pandas
    date index with `strftime("%Y-%m-%d")` and carries it along).
  * Network effects are oracles: per-attempt outcome functions
    `Nat → Except String _`.  Observable effects (network calls and
    `time.sleep` backoffs) are recorded in an event trace.
  * `sys.exit(n)` becomes the `exitCode` field of the run result.
-/

/-- Observable side effects of one run: a `time.sleep secs` call, a
`yf.download` network call (attempt number), or a `requests.post` to
Telegram (`call` 1 = primary alert, `call` 2 = failure message;
`attempt` is the retry attempt number). -/
inductive Event where
  | sleep (secs : Nat)
  | download (attempt : Nat)
  | post (call : Nat) (attempt : Nat)
deriving DecidableEq

/-- `RETRIES = 3` from the source. -/
def RETRIES : Nat := 3

/-- `RETRY_DELAY = 5` from the source. -/
def RETRY_DELAY : Nat := 5

/-- The default smoothing parameter: `compute_ewma`'s Python default
argument `lambda_=0.97`, used by `main`. -/
def LAMBDA_DEFAULT : ℚ := 97 / 100

/-- The retry loop body shared by `fetch_vix` and `send_telegram`:
`for attempt in range(1, RETRIES + 1): try ... except: warn; if
attempt < RETRIES: time.sleep(RETRY_DELAY * attempt) else: raise`.
`act attempt` is the outcome of the attempt's `try` body, `tag
attempt` the network event it emits; `rem` counts the attempts still
allowed including the current one (`rem = 0` is unreachable for
`RETRIES = 3`, matching the Python loop body never running). -/
def retryAux (act : Nat → Except String α) (tag : Nat → Event) :
    Nat → Nat → Except String α × List Event
  | _, 0 => (Except.error "retry budget exhausted", [])
  | attempt, rem + 1 =>
    match act attempt with
    | Except.ok a => (Except.ok a, [tag attempt])
    | Except.error e =>
      if rem = 0 then
        (Except.error e, [tag attempt])
      else
        let r := retryAux act tag (attempt + 1) rem
        (r.1, tag attempt :: Event.sleep (RETRY_DELAY * attempt) :: r.2)

/-- Run the retry loop from attempt 1 with the full `RETRIES` budget. -/
def withRetry (act : Nat → Except String α) (tag : Nat → Event) :
    Except String α × List Event :=
  retryAux act tag 1 RETRIES

/-- The slice of a pandas DataFrame that `fetch_vix` inspects: whether
a `"Close"` column is present, and the rows of the (date-indexed)
close column, a cell being `none` for NaN.  `df.empty` is `rows = []`. -/
structure DataFrame where
  hasClose : Bool
  rows : List (String × Option ℚ)
deriving DecidableEq

/-- The body of one `fetch_vix` attempt: `yf.download` (the oracle
`download`), then `if df.empty or "Close" not in df.columns: raise
RuntimeError(...)`, else `return df["Close"]`.  The RuntimeError text
is the source's, with the inner quotes around Close elided. -/
def fetchAttempt (download : Nat → Except String DataFrame) (attempt : Nat) :
    Except String (List (String × Option ℚ)) :=
  match download attempt with
  | Except.error e => Except.error e
  | Except.ok df =>
    if df.rows.isEmpty || !df.hasClose then
      Except.error "VIX data missing Close or empty"
    else
      Except.ok df.rows

/-- `fetch_vix`: the retry loop around one download-and-validate
attempt, returning the close series or the last attempt's error,
together with the event trace. -/
def fetch_vix (download : Nat → Except String DataFrame) :
    Except String (List (String × Option ℚ)) × List Event :=
  withRetry (fetchAttempt download) Event.download

/-- `send_telegram`: the retry loop around one `requests.post` +
`raise_for_status` + `r.json()` attempt (the oracle `post`); `call`
distinguishes the primary alert send from the failure-message send. -/
def send_telegram (post : Nat → Except String Unit) (call : Nat) :
    Except String Unit × List Event :=
  withRetry post (Event.post call)

/-- Reference recurrence on NaN-free values: given the previous output
`prev`, emit `alpha * x + (1 - alpha) * prev` for each input `x`. -/
def ewmaGo (alpha prev : ℚ) : List ℚ → List ℚ
  | [] => []
  | x :: xs =>
    (alpha * x + (1 - alpha) * prev) ::
      ewmaGo alpha (alpha * x + (1 - alpha) * prev) xs

/-- Reference EWMA on NaN-free values: first output equals first input,
then the `ewmaGo` recurrence. -/
def ewmaList (alpha : ℚ) : List ℚ → List ℚ
  | [] => []
  | x :: xs => x :: ewmaGo alpha x xs

/-- pandas `ewm(alpha, adjust=False, ignore_na=False).mean()` state
machine on cells that may be NaN.  State: `avg` is the running
weighted average (`none` while no observation has been seen), `oldWt`
the accumulated weight of `avg`.  Each step decays `oldWt` by
`1 - alpha`; a valid cell `x` updates
`avg := (oldWt' * avg + alpha * x) / (oldWt' + alpha)` and resets
`oldWt := 1`; the emitted cell is the current `avg` (so leading NaNs
emit NaN, and NaN cells after the first observation emit the carried
average, exactly as pandas does). -/
def ewmaNaGo (alpha : ℚ) : Option ℚ → ℚ → List (Option ℚ) → List (Option ℚ)
  | _, _, [] => []
  | some m, oldWt, v :: rest =>
    match v with
    | some x =>
      ((oldWt * (1 - alpha) * m + alpha * x) / (oldWt * (1 - alpha) + alpha)) ::
        ewmaNaGo alpha
          (some ((oldWt * (1 - alpha) * m + alpha * x) / (oldWt * (1 - alpha) + alpha)))
          1 rest
    | none => some m :: ewmaNaGo alpha (some m) (oldWt * (1 - alpha)) rest
  | none, oldWt, v :: rest =>
    match v with
    | some x => some x :: ewmaNaGo alpha (some x) 1 rest
    | none => none :: ewmaNaGo alpha none oldWt rest

/-- The pandas EWMA over a column of possibly-NaN cells: the first cell
initialises the state, then `ewmaNaGo` runs. -/
def computeEwmaVals (alpha : ℚ) : List (Option ℚ) → List (Option ℚ)
  | [] => []
  | v :: rest => v :: ewmaNaGo alpha v 1 rest

/-- `compute_ewma(series, lambda_)`: `alpha = 1 - lambda_`, then
`series.ewm(alpha=alpha, adjust=False).mean()`; the date index is
preserved unchanged. -/
def compute_ewma (series : List (String × Option ℚ)) (lambda_ : ℚ) :
    List (String × Option ℚ) :=
  (series.map Prod.fst).zip (computeEwmaVals (1 - lambda_) (series.map Prod.snd))

/-- `pd.concat([vix, vix_ewma], axis=1)` for two columns sharing the
same date index: the positional pairing of the two columns. -/
def concatCols (x y : List (String × Option ℚ)) :
    List (String × Option ℚ × Option ℚ) :=
  (x.zip y).map fun pq => (pq.1.1, pq.1.2, pq.2.2)

/-- `df.dropna()`: keep exactly the rows where both cells are defined. -/
def dropna : List (String × Option ℚ × Option ℚ) → List (String × ℚ × ℚ)
  | [] => []
  | (d, some x, some y) :: rest => (d, x, y) :: dropna rest
  | (_, none, _) :: rest => dropna rest
  | (_, some _, none) :: rest => dropna rest

/-- `round(|q| * 100)` as a natural number, i.e. the integer nearest to
`|q| * 100` (halves up): for `q = n / d ≥ 0` this is
`(200 * n + d) / (2 * d)` in integer division. -/
def cents (q : ℚ) : Nat := (200 * q.num.natAbs + q.den) / (2 * q.den)

/-- Python `f"...:.2f"` on an exact rational: sign, integer part, and
two fractional digits of the value rounded to a whole number of
hundredths.  (Python rounds the binary double half-to-even; this
rounds the exact rational half-up — the two agree away from exact
ties, and every value this development evaluates is away from a tie.) -/
def fmt2 (q : ℚ) : String :=
  (if q < 0 then "-" else "") ++
    toString (cents q / 100) ++ "." ++
    (if cents q % 100 < 10 then "0" else "") ++
    toString (cents q % 100)

/-- The above-trend status line of `create_message`. -/
def MSG_ABOVE : String := "🔴 VIX ABOVE EWMA — Risk conditions elevated."

/-- The below-trend status line of `create_message`. -/
def MSG_BELOW : String :=
  "🟢 VIX BELOW EWMA — Favorable for short-vol trades (per Sinclair)."

/-- `create_message(date_str, vix_val, ewma_val, above)`: the f-string
`f"📅 {date_str}\nVIX: {vix_val:.2f}\nEWMA(λ=0.97): {ewma_val:.2f}\n\n{status}"`
with `status` chosen by `above`. -/
def create_message (date_str : String) (vix_val ewma_val : ℚ) (above : Bool) :
    String :=
  "📅 " ++ date_str ++ "\nVIX: " ++ fmt2 vix_val ++ "\nEWMA(λ=0.97): " ++
    fmt2 ewma_val ++ "\n\n" ++ (if above then MSG_ABOVE else MSG_BELOW)

/-- Line 91 of the source: `above = int(vix_val > ewma_val)`. -/
def aboveFlag (vix_val ewma_val : ℚ) : Bool := decide (vix_val > ewma_val)

/-- Python truthiness of `os.getenv` credential values: missing
(`none`) or the empty string. -/
def isBlank : Option String → Bool
  | none => true
  | some s => s.isEmpty

/-- The environment and network behaviour one run of `main` sees:
the two credential variables, and per-attempt outcome oracles for the
download, the primary alert post, and the failure-message post. -/
structure World where
  botToken : Option String
  chatId : Option String
  download : Nat → Except String DataFrame
  postSend : Nat → Except String Unit
  postFail : Nat → Except String Unit

/-- `not bot_token or not chat_id` at the top of `main`. -/
def credsMissing (w : World) : Bool := isBlank w.botToken || isBlank w.chatId

/-- The observable outcome of one run of `main`: the `sys.exit` code,
the event trace, the alert message prepared on the success path (if
reached), and the failure-message text handed to the secondary
`send_telegram` (if the failure path ran). -/
structure RunResult where
  exitCode : Nat
  events : List Event
  alertMsg : Option String
  failMsg : Option String
deriving DecidableEq

/-- The `except Exception as e` block of `main`: one best-effort
`send_telegram(bot_token, chat_id, f"⚠️ VIX alert failed: {e}")` whose
own failure is swallowed (`except Exception: logging.exception(...)`),
then `sys.exit(1)`. -/
def failurePath (w : World) (fev : List Event) (am : Option String)
    (err : String) : RunResult :=
  RunResult.mk 1 (fev ++ (send_telegram w.postFail 2).2) am
    (some ("⚠️ VIX alert failed: " ++ err))

/-- `main()`: credential check (exit 2 when absent), then fetch →
smooth → concat → dropna → empty check → latest row → classify →
format → send, any failure being routed through `failurePath` (exit
1), success exiting 0.  `df.iloc[-1]` after the `df.empty` check is
modelled by matching on `getLast?`. -/
def mainRun (w : World) : RunResult :=
  if credsMissing w then RunResult.mk 2 [] none none
  else
    match fetch_vix w.download with
    | (Except.error e, fev) => failurePath w fev none e
    | (Except.ok vix, fev) =>
      match (dropna (concatCols vix (compute_ewma vix LAMBDA_DEFAULT))).getLast? with
      | none => failurePath w fev none "Resulting DataFrame empty after dropping NA"
      | some latest =>
        let message := create_message latest.1 latest.2.1 latest.2.2
          (aboveFlag latest.2.1 latest.2.2)
        match send_telegram w.postSend 1 with
        | (Except.ok _, sev) => RunResult.mk 0 (fev ++ sev) (some message) none
        | (Except.error e, sev) => failurePath w (fev ++ sev) (some message) e

/-- The success path of `main` runs to completion: the fetch succeeds,
the joined-and-cleaned frame is non-empty, and the primary send
succeeds. -/
def runSucceeds (w : World) : Bool :=
  match fetch_vix w.download with
  | (Except.error _, _) => false
  | (Except.ok vix, _) =>
    match (dropna (concatCols vix (compute_ewma vix LAMBDA_DEFAULT))).getLast? with
    | none => false
    | some _ =>
      match (send_telegram w.postSend 1).1 with
      | Except.ok _ => true
      | Except.error _ => false

/-- Substring test on character lists: some suffix of `l` has `sub` as
a prefix. -/
def hasSub : List Char → List Char → Bool
  | [], sub => sub.isEmpty
  | c :: rest, sub => sub.isPrefixOf (c :: rest) || hasSub rest sub

/-- Python's `sub in s` substring test. -/
def strContains (s sub : String) : Bool := hasSub s.toList sub.toList

/-- Lowercase a string character by character (ASCII case folding), used to state case-insensitive containment. -/
def lowerStr (s : String) : String := String.mk (s.toList.map Char.toLower)

/-- Replace only the failure-notification oracle of a world, leaving everything else unchanged. -/
def setPostFail (w : World) (pf : Nat → Except String Unit) : World :=
  World.mk w.botToken w.chatId w.download w.postSend pf

/-- A download oracle whose every attempt fails with a network error. -/
def dlFail : Nat → Except String DataFrame := fun _ => Except.error "network down"

/-- A Telegram post oracle whose every attempt fails. -/
def postFailOracle : Nat → Except String Unit := fun _ => Except.error "telegram down"

/-- A download oracle that always returns an empty DataFrame. -/
def emptyDl : Nat → Except String DataFrame := fun _ => Except.ok (DataFrame.mk true [])

/-- A download oracle that always returns one valid close row. -/
def okDl : Nat → Except String DataFrame :=
  fun _ => Except.ok (DataFrame.mk true [("2025-10-10", some 20)])

/-- A Telegram post oracle that always succeeds. -/
def okPost : Nat → Except String Unit := fun _ => Except.ok ()

/-- A world with the bot token missing. -/
def wNoCreds : World := World.mk none (some "chat") dlFail postFailOracle postFailOracle

/-- A world where every external interaction succeeds. -/
def wOk : World := World.mk (some "token") (some "chat") okDl okPost okPost

/-- A world with credentials present whose every download returns an empty DataFrame. -/
def wEmptyDf : World :=
  World.mk (some "token") (some "chat") emptyDl postFailOracle postFailOracle

/-- A download oracle returning one row whose close value is NaN. -/
def noneDl : Nat → Except String DataFrame :=
  fun _ => Except.ok (DataFrame.mk true [("2025-10-10", none)])

/-- A world with credentials present whose download returns only NaN close values. -/
def wNoneDf : World :=
  World.mk (some "token") (some "chat") noneDl postFailOracle postFailOracle

lemma ewmaGo_length (a p : ℚ) (l : List ℚ) : (ewmaGo a p l).length = l.length := by
  induction l generalizing p with
  | nil => rfl
  | cons x xs ih => simp [ewmaGo, ih]

lemma ewmaList_length (a : ℚ) (l : List ℚ) : (ewmaList a l).length = l.length := by
  cases l with
  | nil => rfl
  | cons x xs => simp [ewmaList, ewmaGo_length]

lemma ewmaGo_get_succ (a p : ℚ) (l : List ℚ) (i : Nat)
    (hi : i + 1 < l.length) (hg : i + 1 < (ewmaGo a p l).length)
    (hg0 : i < (ewmaGo a p l).length) :
    (ewmaGo a p l)[i + 1] = a * l[i + 1] + (1 - a) * (ewmaGo a p l)[i] := by
  induction l generalizing p i with
  | nil => simp at hi
  | cons x xs ih =>
    cases i with
    | zero =>
      cases xs with
      | nil => simp at hi
      | cons y ys => simp [ewmaGo]
    | succ j =>
      have hxs : j + 1 < xs.length := by simpa using hi
      have hg1 : j + 1 < (ewmaGo a (a * x + (1 - a) * p) xs).length := by
        rw [ewmaGo_length]; exact hxs
      have hg2 : j < (ewmaGo a (a * x + (1 - a) * p) xs).length := by omega
      have := ih (a * x + (1 - a) * p) j hxs hg1 hg2
      simpa [ewmaGo] using this

lemma ewmaList_get_zero (a : ℚ) (l : List ℚ) (h : 0 < l.length)
    (h2 : 0 < (ewmaList a l).length) : (ewmaList a l)[0] = l[0] := by
  cases l with
  | nil => simp at h
  | cons x xs => simp [ewmaList]

lemma ewmaList_rec (a : ℚ) (l : List ℚ) (i : Nat)
    (hi : i + 1 < l.length) (hg : i + 1 < (ewmaList a l).length)
    (hg0 : i < (ewmaList a l).length) :
    (ewmaList a l)[i + 1] = a * l[i + 1] + (1 - a) * (ewmaList a l)[i] := by
  cases l with
  | nil => simp at hi
  | cons x xs =>
    cases i with
    | zero =>
      cases xs with
      | nil => simp at hi
      | cons y ys => simp [ewmaList, ewmaGo]
    | succ j =>
      have hxs : j + 1 < xs.length := by simpa using hi
      have h1 : j + 1 < (ewmaGo a x xs).length := by rw [ewmaGo_length]; exact hxs
      have h0 : j < (ewmaGo a x xs).length := by omega
      have := ewmaGo_get_succ a x xs j hxs h1 h0
      simpa [ewmaList] using this

lemma ewmaNaGo_some (a m : ℚ) (l : List ℚ) :
    ewmaNaGo a (some m) 1 (l.map some) = (ewmaGo a m l).map some := by
  induction l generalizing m with
  | nil => rfl
  | cons x xs ih =>
    have hval : (1 * (1 - a) * m + a * x) / (1 * (1 - a) + a) = a * x + (1 - a) * m := by
      have hden : 1 * (1 - a) + a = 1 := by ring
      rw [hden, div_one]; ring
    simp only [List.map, ewmaNaGo, ewmaGo, hval, ih]

lemma computeEwmaVals_some (a : ℚ) (l : List ℚ) :
    computeEwmaVals a (l.map some) = (ewmaList a l).map some := by
  cases l with
  | nil => rfl
  | cons x xs => simp only [List.map, computeEwmaVals, ewmaList, ewmaNaGo_some]

lemma compute_ewma_allSome (S : List (String × ℚ)) (lam : ℚ) :
    compute_ewma (S.map fun p => (p.1, some p.2)) lam
      = (S.map Prod.fst).zip ((ewmaList (1 - lam) (S.map Prod.snd)).map some) := by
  have h1 : (S.map fun p => (p.1, some p.2)).map Prod.fst = S.map Prod.fst := by
    simp [List.map_map, Function.comp]
  have h2 : (S.map fun p => (p.1, some p.2)).map Prod.snd = (S.map Prod.snd).map some := by
    simp [List.map_map, Function.comp]
  rw [compute_ewma, h1, h2, computeEwmaVals_some]

/-- C1: for every TimeSeries `S` (all values defined) and decay parameter λ ∈ (0,1), `compute_ewma` returns a series of identical length and index alignment whose values `O` satisfy, with α = 1 − λ: `O[0] = S[0]` exactly and `O[i] = α * S[i] + (1 − α) * O[i−1]` for every i > 0. -/
theorem ewma_contract_C1 (S : List (String × ℚ)) (lam : ℚ)
    (hl0 : 0 < lam) (hl1 : lam < 1) :
    ∃ O : List ℚ,
      compute_ewma (S.map fun p => (p.1, some p.2)) lam
        = (S.map Prod.fst).zip (O.map some) ∧
      O.length = S.length ∧
      (∀ (h : 0 < O.length) (h2 : 0 < S.length), O[0] = (S[0]).2) ∧
      (∀ i (hi : i + 1 < O.length) (hi2 : i + 1 < S.length) (hprev : i < O.length),
        O[i + 1] = (1 - lam) * (S[i + 1]).2 + (1 - (1 - lam)) * O[i]) := by
  refine ⟨ewmaList (1 - lam) (S.map Prod.snd), compute_ewma_allSome S lam, ?_, ?_, ?_⟩
  · rw [ewmaList_length, List.length_map]
  · intro h h2
    have hm : 0 < (S.map Prod.snd).length := by simpa using h2
    rw [ewmaList_get_zero (1 - lam) (S.map Prod.snd) hm h]
    simp
  · intro i hi hi2 hprev
    have hm : i + 1 < (S.map Prod.snd).length := by simpa using hi2
    have := ewmaList_rec (1 - lam) (S.map Prod.snd) i hm hi hprev
    rw [this]
    simp

/-- Closed witness for C1 at a concrete series and λ = 1/2. -/
theorem ewma_contract_C1_witness :
    0 < (1/2 : ℚ) ∧ (1/2 : ℚ) < 1 ∧
    ∃ O : List ℚ,
      compute_ewma (([("2025-10-09", (1 : ℚ)), ("2025-10-10", 2)]).map
          fun p => (p.1, some p.2)) (1/2)
        = (([("2025-10-09", (1 : ℚ)), ("2025-10-10", 2)]).map Prod.fst).zip
            (O.map some) ∧
      O.length = ([("2025-10-09", (1 : ℚ)), ("2025-10-10", 2)]).length ∧
      (∀ (h : 0 < O.length)
        (h2 : 0 < ([("2025-10-09", (1 : ℚ)), ("2025-10-10", 2)]).length),
        O[0] = (([("2025-10-09", (1 : ℚ)), ("2025-10-10", 2)])[0]).2) ∧
      (∀ i (hi : i + 1 < O.length)
        (hi2 : i + 1 < ([("2025-10-09", (1 : ℚ)), ("2025-10-10", 2)]).length)
        (hprev : i < O.length),
        O[i + 1] = (1 - 1/2) * (([("2025-10-09", (1 : ℚ)), ("2025-10-10", 2)])[i + 1]).2
          + (1 - (1 - 1/2)) * O[i]) :=
  ⟨by norm_num, by norm_num,
   ewma_contract_C1 [("2025-10-09", (1 : ℚ)), ("2025-10-10", 2)] (1/2)
     (by norm_num) (by norm_num)⟩

lemma withRetry_ok1 (act : Nat → Except String α) (tag : Nat → Event) (v : α)
    (h1 : act 1 = Except.ok v) :
    withRetry act tag = (Except.ok v, [tag 1]) := by
  simp [withRetry, RETRIES, retryAux, h1]

lemma withRetry_ok2 (act : Nat → Except String α) (tag : Nat → Event) (e1 : String) (v : α)
    (h1 : act 1 = Except.error e1) (h2 : act 2 = Except.ok v) :
    withRetry act tag = (Except.ok v, [tag 1, Event.sleep 5, tag 2]) := by
  simp [withRetry, RETRIES, RETRY_DELAY, retryAux, h1, h2]

lemma withRetry_ok3 (act : Nat → Except String α) (tag : Nat → Event)
    (e1 e2 : String) (v : α)
    (h1 : act 1 = Except.error e1) (h2 : act 2 = Except.error e2)
    (h3 : act 3 = Except.ok v) :
    withRetry act tag
      = (Except.ok v, [tag 1, Event.sleep 5, tag 2, Event.sleep 10, tag 3]) := by
  simp [withRetry, RETRIES, RETRY_DELAY, retryAux, h1, h2, h3]

lemma withRetry_allFail (act : Nat → Except String α) (tag : Nat → Event)
    (e1 e2 e3 : String)
    (h1 : act 1 = Except.error e1) (h2 : act 2 = Except.error e2)
    (h3 : act 3 = Except.error e3) :
    withRetry act tag
      = (Except.error e3, [tag 1, Event.sleep 5, tag 2, Event.sleep 10, tag 3]) := by
  simp [withRetry, RETRIES, RETRY_DELAY, retryAux, h1, h2, h3]

/-- C2: for both `fetch_vix` and `send_telegram`, if all three attempts fail the function sleeps exactly twice — 5 s after attempt 1 and 10 s after attempt 2, none after attempt 3 — and re-raises the final attempt's error unmodified; if some attempt succeeds its result is returned immediately with no further attempts and no further sleeps. -/
theorem retry_policy_C2 (download : Nat → Except String DataFrame)
    (post : Nat → Except String Unit) (call : Nat) :
    (∀ e1 e2 e3, fetchAttempt download 1 = Except.error e1 →
      fetchAttempt download 2 = Except.error e2 →
      fetchAttempt download 3 = Except.error e3 →
      fetch_vix download
        = (Except.error e3,
           [Event.download 1, Event.sleep 5, Event.download 2, Event.sleep 10,
            Event.download 3])) ∧
    (∀ v, fetchAttempt download 1 = Except.ok v →
      fetch_vix download = (Except.ok v, [Event.download 1])) ∧
    (∀ e1 v, fetchAttempt download 1 = Except.error e1 →
      fetchAttempt download 2 = Except.ok v →
      fetch_vix download
        = (Except.ok v, [Event.download 1, Event.sleep 5, Event.download 2])) ∧
    (∀ e1 e2 v, fetchAttempt download 1 = Except.error e1 →
      fetchAttempt download 2 = Except.error e2 →
      fetchAttempt download 3 = Except.ok v →
      fetch_vix download
        = (Except.ok v,
           [Event.download 1, Event.sleep 5, Event.download 2, Event.sleep 10,
            Event.download 3])) ∧
    (∀ f1 f2 f3, post 1 = Except.error f1 → post 2 = Except.error f2 →
      post 3 = Except.error f3 →
      send_telegram post call
        = (Except.error f3,
           [Event.post call 1, Event.sleep 5, Event.post call 2, Event.sleep 10,
            Event.post call 3])) ∧
    (∀ u, post 1 = Except.ok u →
      send_telegram post call = (Except.ok u, [Event.post call 1])) ∧
    (∀ f1 u, post 1 = Except.error f1 → post 2 = Except.ok u →
      send_telegram post call
        = (Except.ok u, [Event.post call 1, Event.sleep 5, Event.post call 2])) ∧
    (∀ f1 f2 u, post 1 = Except.error f1 → post 2 = Except.error f2 →
      post 3 = Except.ok u →
      send_telegram post call
        = (Except.ok u,
           [Event.post call 1, Event.sleep 5, Event.post call 2, Event.sleep 10,
            Event.post call 3])) := by
  refine ⟨?_, ?_, ?_, ?_, ?_, ?_, ?_, ?_⟩
  · intro e1 e2 e3 h1 h2 h3; exact withRetry_allFail _ _ e1 e2 e3 h1 h2 h3
  · intro v h1; exact withRetry_ok1 _ _ v h1
  · intro e1 v h1 h2; exact withRetry_ok2 _ _ e1 v h1 h2
  · intro e1 e2 v h1 h2 h3; exact withRetry_ok3 _ _ e1 e2 v h1 h2 h3
  · intro f1 f2 f3 h1 h2 h3; exact withRetry_allFail _ _ f1 f2 f3 h1 h2 h3
  · intro u h1; exact withRetry_ok1 _ _ u h1
  · intro f1 u h1 h2; exact withRetry_ok2 _ _ f1 u h1 h2
  · intro f1 f2 u h1 h2 h3; exact withRetry_ok3 _ _ f1 f2 u h1 h2 h3

/-- Closed witness for C2: all attempts of both components fail. -/
theorem retry_policy_C2_witness :
    fetch_vix dlFail
      = (Except.error "network down",
         [Event.download 1, Event.sleep 5, Event.download 2, Event.sleep 10,
          Event.download 3]) ∧
    send_telegram postFailOracle 1
      = (Except.error "telegram down",
         [Event.post 1 1, Event.sleep 5, Event.post 1 2, Event.sleep 10,
          Event.post 1 3]) :=
  ⟨(retry_policy_C2 dlFail postFailOracle 1).1 "network down" "network down"
      "network down" rfl rfl rfl,
   (retry_policy_C2 dlFail postFailOracle 1).2.2.2.2.1 "telegram down"
      "telegram down" "telegram down" rfl rfl rfl⟩

/-- C3: the classification is `aboveFlag = rawValue > smoothedValue` under strict inequality: equality yields `false`, strictly greater yields `true`. -/
theorem classification_C3 (v w : ℚ) :
    (aboveFlag v w = true ↔ v > w) ∧
    (v = w → aboveFlag v w = false) ∧
    (v > w → aboveFlag v w = true) := by
  refine ⟨by simp [aboveFlag], ?_, ?_⟩
  · intro h; simp [aboveFlag, h]
  · intro h; simp [aboveFlag, h]

/-- Closed witness for C3 at the boundary and just above it. -/
theorem classification_C3_witness :
    aboveFlag 1 1 = false ∧ aboveFlag (2.0001 : ℚ) 2 = true :=
  ⟨(classification_C3 1 1).2.1 rfl, (classification_C3 (2.0001 : ℚ) 2).2.2 (by norm_num)⟩

lemma retryAux_ok (act : Nat → Except String α) (tag : Nat → Event)
    (att rem : Nat) (v : α) (ev : List Event)
    (h : retryAux act tag att rem = (Except.ok v, ev)) : ∃ a, act a = Except.ok v := by
  induction rem generalizing att ev with
  | zero => simp [retryAux] at h
  | succ n ih =>
    rw [retryAux] at h
    cases hact : act att with
    | ok a =>
      rw [hact] at h
      refine ⟨att, ?_⟩
      rw [hact]
      simp at h
      rw [h.1]
    | error e =>
      rw [hact] at h
      by_cases hn : n = 0
      · subst hn; simp at h
      · simp [hn] at h
        exact ih (att + 1) (retryAux act tag (att + 1) n).2
          (by rw [← h.1])

lemma fetchAttempt_ok (download : Nat → Except String DataFrame) (a : Nat)
    (s : List (String × Option ℚ)) (h : fetchAttempt download a = Except.ok s) :
    s ≠ [] := by
  rw [fetchAttempt] at h
  cases hd : download a with
  | error e => rw [hd] at h; exact absurd h (by simp)
  | ok df =>
    rw [hd] at h
    by_cases hc : df.rows.isEmpty || !df.hasClose
    · simp [hc] at h
    · simp [hc] at h
      subst h
      simp at hc
      exact List.isEmpty_eq_false.mp (by simp [hc.1])

/-- C9: `fetch_vix` never returns an empty series: an OK result is non-empty, and a downloaded frame that is empty or lacks the Close column makes that attempt a retryable failure, never a result. -/
theorem fetch_validation_C9 (download : Nat → Except String DataFrame) :
    (∀ s ev, fetch_vix download = (Except.ok s, ev) → s ≠ []) ∧
    (∀ a df, download a = Except.ok df → (df.rows = [] ∨ df.hasClose = false) →
      fetchAttempt download a = Except.error "VIX data missing Close or empty") := by
  constructor
  · intro s ev h
    obtain ⟨a, ha⟩ := retryAux_ok (fetchAttempt download) Event.download 1 RETRIES s ev h
    exact fetchAttempt_ok download a s ha
  · intro a df hdf hbad
    rw [fetchAttempt, hdf]
    have : df.rows.isEmpty || !df.hasClose := by
      rcases hbad with h | h
      · simp [h]
      · simp [h]
    simp [this]

/-- Closed witness for C9: a successful fetch is non-empty; an empty frame is a failed attempt. -/
theorem fetch_validation_C9_witness :
    ([(("2025-10-10" : String), some (20 : ℚ))] ≠ []) ∧
    fetchAttempt emptyDl 1 = Except.error "VIX data missing Close or empty" :=
  ⟨(fetch_validation_C9 okDl).1 [("2025-10-10", some 20)] [Event.download 1] rfl,
   (fetch_validation_C9 emptyDl).2 1 (DataFrame.mk true []) rfl (Or.inl rfl)⟩

lemma isPrefixOf_append (p l t : List Char) (h : p.isPrefixOf l = true) :
    p.isPrefixOf (l ++ t) = true := by
  induction p generalizing l with
  | nil => simp [List.isPrefixOf]
  | cons c cs ih =>
    cases l with
    | nil => simp [List.isPrefixOf] at h
    | cons d ds =>
      simp only [List.isPrefixOf, List.cons_append, Bool.and_eq_true] at h ⊢
      exact ⟨h.1, ih ds h.2⟩

lemma isPrefixOf_refl (l : List Char) : l.isPrefixOf l = true := by
  induction l with
  | nil => rfl
  | cons c cs ih => simp [List.isPrefixOf, ih]

lemma hasSub_of_isPrefixOf (l sub : List Char) (h : sub.isPrefixOf l = true) :
    hasSub l sub = true := by
  cases l with
  | nil =>
    cases sub with
    | nil => rfl
    | cons c cs => simp [List.isPrefixOf] at h
  | cons c cs => simp [hasSub, h]

lemma hasSub_append_left (l t sub : List Char) (h : hasSub l sub = true) :
    hasSub (l ++ t) sub = true := by
  induction l with
  | nil =>
    simp [hasSub] at h
    have : sub = [] := by simpa [List.isEmpty_iff] using h
    subst this
    exact hasSub_of_isPrefixOf _ _ (by simp [List.isPrefixOf])
  | cons c cs ih =>
    simp only [hasSub, Bool.or_eq_true] at h
    rcases h with h | h
    · simp only [List.cons_append, hasSub, Bool.or_eq_true]
      exact Or.inl (isPrefixOf_append _ _ _ h)
    · simp only [List.cons_append, hasSub, Bool.or_eq_true]
      exact Or.inr (ih h)

lemma hasSub_append_right (l t sub : List Char) (h : hasSub t sub = true) :
    hasSub (l ++ t) sub = true := by
  induction l with
  | nil => simpa using h
  | cons c cs ih => simp only [List.cons_append, hasSub, Bool.or_eq_true]; exact Or.inr ih

lemma hasSub_refl (l : List Char) : hasSub l l = true :=
  hasSub_of_isPrefixOf l l (isPrefixOf_refl l)

lemma toList_append (s t : String) : (s ++ t).toList = s.toList ++ t.toList := by
  cases s; cases t; rfl

lemma strContains_append_left (s t sub : String) (h : strContains s sub = true) :
    strContains (s ++ t) sub = true := by
  rw [strContains, toList_append]
  exact hasSub_append_left _ _ _ h

lemma strContains_append_right (s t sub : String) (h : strContains t sub = true) :
    strContains (s ++ t) sub = true := by
  rw [strContains, toList_append]
  exact hasSub_append_right _ _ _ h

lemma strContains_self (s : String) : strContains s s = true := hasSub_refl s.toList

/-- C7: the alert message contains the date string, the raw value rendered to 2 decimal places, the smoothed value rendered to 2 decimal places, the λ value used (0.97), and exactly one of the two distinct status phrases, selected by the flag. -/
theorem message_fields_C7 (date_str : String) (vix_val ewma_val : ℚ) (above : Bool) :
    strContains (create_message date_str vix_val ewma_val above) date_str = true ∧
    strContains (create_message date_str vix_val ewma_val above) (fmt2 vix_val) = true ∧
    strContains (create_message date_str vix_val ewma_val above) (fmt2 ewma_val) = true ∧
    strContains (create_message date_str vix_val ewma_val above) "λ=0.97" = true ∧
    strContains (create_message date_str vix_val ewma_val above)
      (if above then MSG_ABOVE else MSG_BELOW) = true ∧
    MSG_ABOVE ≠ MSG_BELOW := by
  rw [create_message]
  refine ⟨?_, ?_, ?_, ?_, ?_, by decide⟩
  · apply strContains_append_left; apply strContains_append_left
    apply strContains_append_left; apply strContains_append_left
    apply strContains_append_left; apply strContains_append_left
    apply strContains_append_right; exact strContains_self _
  · apply strContains_append_left; apply strContains_append_left
    apply strContains_append_left; apply strContains_append_left
    apply strContains_append_right; exact strContains_self _
  · apply strContains_append_left; apply strContains_append_left
    apply strContains_append_right; exact strContains_self _
  · apply strContains_append_left; apply strContains_append_left
    apply strContains_append_left
    apply strContains_append_right
    decide
  · apply strContains_append_right; exact strContains_self _

lemma mainRun_cases (w : World) (hcred : credsMissing w = false) :
    (runSucceeds w = true → (mainRun w).exitCode = 0 ∧ (mainRun w).failMsg = none) ∧
    (runSucceeds w = false → (mainRun w).exitCode = 1 ∧
      ∃ err, (mainRun w).failMsg = some ("⚠️ VIX alert failed: " ++ err)) := by
  cases hfp : fetch_vix w.download with
  | mk fr fev =>
    cases fr with
    | error e =>
      constructor
      · intro hs
        simp [runSucceeds, hfp] at hs
      · intro _
        refine ⟨by simp [mainRun, hcred, hfp, failurePath], e, ?_⟩
        simp [mainRun, hcred, hfp, failurePath]
    | ok vix =>
      cases hgl : (dropna (concatCols vix (compute_ewma vix LAMBDA_DEFAULT))).getLast? with
      | none =>
        constructor
        · intro hs
          simp [runSucceeds, hfp, hgl] at hs
        · intro _
          refine ⟨by simp [mainRun, hcred, hfp, hgl, failurePath],
            "Resulting DataFrame empty after dropping NA", ?_⟩
          simp [mainRun, hcred, hfp, hgl, failurePath]
      | some latest =>
        cases hsp : send_telegram w.postSend 1 with
        | mk sr sev =>
          cases sr with
          | ok u =>
            constructor
            · intro _
              simp [mainRun, hcred, hfp, hgl, hsp]
            · intro hs
              simp [runSucceeds, hfp, hgl, hsp] at hs
          | error e =>
            constructor
            · intro hs
              simp [runSucceeds, hfp, hgl, hsp] at hs
            · intro _
              refine ⟨by simp [mainRun, hcred, hfp, hgl, hsp, failurePath], e, ?_⟩
              simp [mainRun, hcred, hfp, hgl, hsp, failurePath]

lemma runSucceeds_setPostFail (w : World) (pf : Nat → Except String Unit) :
    runSucceeds (setPostFail w pf) = runSucceeds w := rfl

lemma credsMissing_setPostFail (w : World) (pf : Nat → Except String Unit) :
    credsMissing (setPostFail w pf) = credsMissing w := rfl

/-- C4: a missing credential exits immediately with code 2 and an empty event trace (no retry, no network call, no notification); with credentials present the exit code is 0 or 1, and it is 0 exactly when the whole success path ran through. -/
theorem exit_codes_C4 (w : World) :
    (credsMissing w = true → mainRun w = RunResult.mk 2 [] none none) ∧
    (credsMissing w = false →
      ((mainRun w).exitCode = 0 ∨ (mainRun w).exitCode = 1) ∧
      ((mainRun w).exitCode = 0 ↔ runSucceeds w = true)) := by
  constructor
  · intro h
    simp [mainRun, h]
  · intro h
    rcases hs : runSucceeds w with _ | _
    · have := (mainRun_cases w h).2 hs
      constructor
      · exact Or.inr this.1
      · simp [this.1]
    · have := (mainRun_cases w h).1 hs
      constructor
      · exact Or.inl this.1
      · simp [this.1]

/-- Closed witness for C4: a credential-less world and an all-success world. -/
theorem exit_codes_C4_witness :
    credsMissing wNoCreds = true ∧
    mainRun wNoCreds = RunResult.mk 2 [] none none ∧
    credsMissing wOk = false ∧
    ((mainRun wOk).exitCode = 0 ∨ (mainRun wOk).exitCode = 1) ∧
    ((mainRun wOk).exitCode = 0 ↔ runSucceeds wOk = true) :=
  ⟨rfl, (exit_codes_C4 wNoCreds).1 rfl, rfl,
   ((exit_codes_C4 wOk).2 rfl).1, ((exit_codes_C4 wOk).2 rfl).2⟩

/-- C8: when the success path fails after credentials were validated, the run exits 1 and carries a failure message containing the error text; the exit code stays 1 whatever the secondary notification oracle does — its failure is swallowed and never escalated. -/
theorem secondary_failure_C8 (w : World) (hcred : credsMissing w = false)
    (hfail : runSucceeds w = false) :
    (mainRun w).exitCode = 1 ∧
    (∃ err, (mainRun w).failMsg = some ("⚠️ VIX alert failed: " ++ err) ∧
      strContains ("⚠️ VIX alert failed: " ++ err) err = true) ∧
    (∀ pf, (mainRun (setPostFail w pf)).exitCode = 1) := by
  obtain ⟨h1, err, herr⟩ := (mainRun_cases w hcred).2 hfail
  refine ⟨h1, ⟨err, herr, strContains_append_right _ _ _ (strContains_self err)⟩, ?_⟩
  intro pf
  have hc : credsMissing (setPostFail w pf) = false := by
    rw [credsMissing_setPostFail]; exact hcred
  have hf : runSucceeds (setPostFail w pf) = false := by
    rw [runSucceeds_setPostFail]; exact hfail
  exact ((mainRun_cases _ hc).2 hf).1

/-- Closed witness for C8 on a world whose fetch always fails. -/
theorem secondary_failure_C8_witness :
    credsMissing wEmptyDf = false ∧ runSucceeds wEmptyDf = false ∧
    ((mainRun wEmptyDf).exitCode = 1 ∧
     (∃ err, (mainRun wEmptyDf).failMsg = some ("⚠️ VIX alert failed: " ++ err) ∧
       strContains ("⚠️ VIX alert failed: " ++ err) err = true) ∧
     (∀ pf, (mainRun (setPostFail wEmptyDf pf)).exitCode = 1)) :=
  ⟨rfl, rfl, secondary_failure_C8 wEmptyDf rfl rfl⟩

lemma dropna_mem (rows : List (String × Option ℚ × Option ℚ)) (d : String) (x y : ℚ) :
    (d, x, y) ∈ dropna rows ↔ (d, some x, some y) ∈ rows := by
  induction rows with
  | nil => simp [dropna]
  | cons r rest ih =>
    obtain ⟨rd, rv, rw⟩ := r
    cases rv with
    | none => simp [dropna, ih]
    | some a =>
      cases rw with
      | none => simp [dropna, ih]
      | some b => simp [dropna, ih]

lemma ewmaNaGo_all_none (a oldWt : ℚ) (l : List (Option ℚ))
    (h : ∀ v ∈ l, v = none) : ewmaNaGo a none oldWt l = l := by
  induction l generalizing oldWt with
  | nil => rfl
  | cons v rest ih =>
    have hv : v = none := h v (by simp)
    subst hv
    simp only [ewmaNaGo]
    rw [ih _ fun u hu => h u (by simp [hu])]

lemma computeEwmaVals_all_none (a : ℚ) (l : List (Option ℚ))
    (h : ∀ v ∈ l, v = none) : computeEwmaVals a l = l := by
  cases l with
  | nil => rfl
  | cons v rest =>
    have hv : v = none := h v (by simp)
    subst hv
    simp only [computeEwmaVals]
    rw [ewmaNaGo_all_none _ _ _ fun u hu => h u (by simp [hu])]

lemma map_fst_tag_none (dts : List String) :
    ((dts.map fun d => (d, (none : Option ℚ))).map Prod.fst) = dts := by
  induction dts with
  | nil => rfl
  | cons d rest ih => simp only [List.map, ih]

lemma map_snd_tag_none (dts : List String) :
    ((dts.map fun d => (d, (none : Option ℚ))).map Prod.snd)
      = dts.map fun _ => (none : Option ℚ) := by
  induction dts with
  | nil => rfl
  | cons d rest ih => simp only [List.map, ih]

lemma compute_ewma_all_none (dts : List String) (lam : ℚ) :
    compute_ewma (dts.map fun d => (d, (none : Option ℚ))) lam
      = dts.zip (dts.map fun _ => (none : Option ℚ)) := by
  rw [compute_ewma, map_fst_tag_none, map_snd_tag_none, computeEwmaVals_all_none]
  intro v hv
  simp at hv
  exact hv.2.symm ▸ rfl

lemma pipeline_all_none (dts : List String) (lam : ℚ) :
    dropna (concatCols (dts.map fun d => (d, (none : Option ℚ)))
      (compute_ewma (dts.map fun d => (d, none)) lam)) = [] := by
  rw [compute_ewma_all_none]
  induction dts with
  | nil => rfl
  | cons d rest ih => simpa [concatCols, dropna] using ih

/-- C6: the join keeps exactly the rows where both values are defined (`dropna` membership); when the fetch returns an empty series every attempt, the propagated error reaches the orchestrator, which makes one failure-notification call and exits 1 with no alert message; likewise when the joined series is empty (non-empty fetch whose close values are all NaN). -/
theorem join_empty_fatal_C6 :
    (∀ rows (d : String) (x y : ℚ),
      (d, x, y) ∈ dropna rows ↔ (d, some x, some y) ∈ rows) ∧
    (∀ w : World, credsMissing w = false →
      (∀ a, w.download a = Except.ok (DataFrame.mk true [])) →
      mainRun w = RunResult.mk 1
        ([Event.download 1, Event.sleep 5, Event.download 2, Event.sleep 10,
          Event.download 3] ++ (send_telegram w.postFail 2).2)
        none (some "⚠️ VIX alert failed: VIX data missing Close or empty")) ∧
    (∀ (w : World) (dts : List String), credsMissing w = false → dts ≠ [] →
      w.download 1 = Except.ok (DataFrame.mk true (dts.map fun d => (d, none))) →
      mainRun w = RunResult.mk 1
        ([Event.download 1] ++ (send_telegram w.postFail 2).2)
        none
        (some "⚠️ VIX alert failed: Resulting DataFrame empty after dropping NA")) := by
  refine ⟨dropna_mem, ?_, ?_⟩
  · intro w hcred hdl
    have hatt : ∀ a, fetchAttempt w.download a
        = Except.error "VIX data missing Close or empty" := by
      intro a
      rw [fetchAttempt, hdl a]
      simp
    have hfetch : fetch_vix w.download
        = (Except.error "VIX data missing Close or empty",
           [Event.download 1, Event.sleep 5, Event.download 2, Event.sleep 10,
            Event.download 3]) :=
      withRetry_allFail _ _ _ _ _ (hatt 1) (hatt 2) (hatt 3)
    simp [mainRun, hcred, hfetch, failurePath]
  · intro w dts hcred hne hdl
    have hatt : fetchAttempt w.download 1
        = Except.ok (dts.map fun d => (d, none)) := by
      rw [fetchAttempt, hdl]
      have : (dts.map fun d => (d, (none : Option ℚ))).isEmpty = false := by
        cases dts with
        | nil => exact absurd rfl hne
        | cons d rest => rfl
      simp [this]
    have hfetch : fetch_vix w.download
        = (Except.ok (dts.map fun d => (d, none)), [Event.download 1]) :=
      withRetry_ok1 _ _ _ hatt
    have hempty := pipeline_all_none dts LAMBDA_DEFAULT
    simp [mainRun, hcred, hfetch, hempty, failurePath]

/-- Closed witness for C6: an always-empty fetch and an all-NaN close column. -/
theorem join_empty_fatal_C6_witness :
    mainRun wEmptyDf = RunResult.mk 1
      ([Event.download 1, Event.sleep 5, Event.download 2, Event.sleep 10,
        Event.download 3] ++ (send_telegram wEmptyDf.postFail 2).2)
      none (some "⚠️ VIX alert failed: VIX data missing Close or empty") ∧
    mainRun wNoneDf = RunResult.mk 1
      ([Event.download 1] ++ (send_telegram wNoneDf.postFail 2).2)
      none
      (some "⚠️ VIX alert failed: Resulting DataFrame empty after dropping NA") :=
  ⟨join_empty_fatal_C6.2.1 wEmptyDf rfl (fun _ => rfl),
   join_empty_fatal_C6.2.2 wNoneDf ["2025-10-10"] rfl (by simp) rfl⟩

lemma dropna_concat_some (dts : List String) (vals W : List ℚ)
    (h1 : dts.length = vals.length) (h2 : vals.length = W.length) :
    dropna (concatCols (dts.zip (vals.map some)) (dts.zip (W.map some)))
      = (dts.zip (vals.zip W)).map fun t => (t.1, t.2.1, t.2.2) := by
  induction dts generalizing vals W with
  | nil => rfl
  | cons d rest ih =>
    cases vals with
    | nil => simp at h1
    | cons v vs =>
      cases W with
      | nil => simp at h2
      | cons u us =>
        have e1 : rest.length = vs.length := by simpa using h1
        have e2 : vs.length = us.length := by simpa using h2
        simpa [concatCols, dropna] using ih vs us e1 e2

lemma zip3_getLast (dts : List String) (vals W : List ℚ)
    (h1 : dts.length = vals.length) (h2 : vals.length = W.length) (hne : vals ≠ []) :
    ∃ a b c,
      ((dts.zip (vals.zip W)).map fun t => (t.1, t.2.1, t.2.2)).getLast?
        = some (a, b, c) ∧
      dts.getLast? = some a ∧ vals.getLast? = some b ∧ W.getLast? = some c := by
  induction dts generalizing vals W with
  | nil =>
    cases vals with
    | nil => exact absurd rfl hne
    | cons v vs => simp at h1
  | cons d rest ih =>
    cases vals with
    | nil => simp at h1
    | cons v vs =>
      cases W with
      | nil => simp at h2
      | cons u us =>
        cases rest with
        | nil =>
          have : vs = [] := by simpa using h1.symm
          subst this
          have : us = [] := by simpa using h2.symm
          subst this
          exact ⟨d, v, u, rfl, rfl, rfl, rfl⟩
        | cons d2 rest2 =>
          have e1 : (d2 :: rest2).length = vs.length := by simpa using h1
          have hvs : vs ≠ [] := by
            cases vs with
            | nil => simp at e1
            | cons a t => simp
          have e2 : vs.length = us.length := by simpa using h2
          obtain ⟨a, b, c, hj, hd, hv, hw⟩ := ih vs us e1 e2 hvs
          cases vs with
          | nil => exact absurd rfl hvs
          | cons v2 vs2 =>
            cases us with
            | nil => simp at e2
            | cons u2 us2 =>
              refine ⟨a, b, c, ?_, ?_, ?_, ?_⟩
              · simpa [List.getLast?_cons_cons] using hj
              · simpa [List.getLast?_cons_cons] using hd
              · simpa [List.getLast?_cons_cons] using hv
              · simpa [List.getLast?_cons_cons] using hw

/-- C10: for a non-empty input series with every value defined, the non-bias-adjusted smoothing is defined at every index (no warm-up gap), the join-and-drop step removes no rows, and the last joined row carries the input's last date and last raw value. -/
theorem no_warmup_C10 (dts : List String) (vals : List ℚ)
    (hlen : dts.length = vals.length) (hne : vals ≠ []) :
    (∀ p ∈ compute_ewma (dts.zip (vals.map some)) LAMBDA_DEFAULT,
      p.2.isSome = true) ∧
    (dropna (concatCols (dts.zip (vals.map some))
        (compute_ewma (dts.zip (vals.map some)) LAMBDA_DEFAULT))).length
      = (dts.zip (vals.map some)).length ∧
    ∃ a b c,
      (dropna (concatCols (dts.zip (vals.map some))
          (compute_ewma (dts.zip (vals.map some)) LAMBDA_DEFAULT))).getLast?
        = some (a, b, c) ∧
      dts.getLast? = some a ∧ vals.getLast? = some b := by
  have hS1 : (dts.zip (vals.map some)).map Prod.fst = dts :=
    List.map_fst_zip _ _ (by simp [hlen])
  have hS2 : (dts.zip (vals.map some)).map Prod.snd = vals.map some :=
    List.map_snd_zip _ _ (by simp [hlen])
  have hC : compute_ewma (dts.zip (vals.map some)) LAMBDA_DEFAULT
      = dts.zip ((ewmaList (1 - LAMBDA_DEFAULT) vals).map some) := by
    rw [compute_ewma, hS1, hS2, computeEwmaVals_some]
  have hW : (ewmaList (1 - LAMBDA_DEFAULT) vals).length = vals.length :=
    ewmaList_length _ _
  have hjoin : dropna (concatCols (dts.zip (vals.map some))
      (compute_ewma (dts.zip (vals.map some)) LAMBDA_DEFAULT))
      = (dts.zip (vals.zip (ewmaList (1 - LAMBDA_DEFAULT) vals))).map
          fun t => (t.1, t.2.1, t.2.2) := by
    rw [hC]
    exact dropna_concat_some dts vals _ hlen hW.symm
  refine ⟨?_, ?_, ?_⟩
  · intro p hp
    rw [hC] at hp
    have := List.of_mem_zip (by exact hp)
    obtain ⟨_, h2⟩ := this
    obtain ⟨q, _, hq⟩ := List.mem_map.mp h2
    rw [← hq]
    rfl
  · rw [hjoin]
    simp [List.length_zip, List.length_map, hW, hlen]
  · rw [hjoin]
    obtain ⟨a, b, c, hj, hd, hv, _⟩ :=
      zip3_getLast dts vals (ewmaList (1 - LAMBDA_DEFAULT) vals) hlen hW.symm hne
    exact ⟨a, b, c, hj, hd, hv⟩

/-- Closed witness for C10 at a concrete two-row series. -/
theorem no_warmup_C10_witness :
    ["2025-10-09", "2025-10-10"].length = [(20 : ℚ), 22].length ∧
    ([(20 : ℚ), 22] : List ℚ) ≠ [] ∧
    ((∀ p ∈ compute_ewma (["2025-10-09", "2025-10-10"].zip
        (([(20 : ℚ), 22]).map some)) LAMBDA_DEFAULT, p.2.isSome = true) ∧
    (dropna (concatCols (["2025-10-09", "2025-10-10"].zip (([(20 : ℚ), 22]).map some))
        (compute_ewma (["2025-10-09", "2025-10-10"].zip
          (([(20 : ℚ), 22]).map some)) LAMBDA_DEFAULT))).length
      = (["2025-10-09", "2025-10-10"].zip (([(20 : ℚ), 22]).map some)).length ∧
    ∃ a b c,
      (dropna (concatCols (["2025-10-09", "2025-10-10"].zip (([(20 : ℚ), 22]).map some))
          (compute_ewma (["2025-10-09", "2025-10-10"].zip
            (([(20 : ℚ), 22]).map some)) LAMBDA_DEFAULT))).getLast?
        = some (a, b, c) ∧
      ["2025-10-09", "2025-10-10"].getLast? = some a ∧
      ([(20 : ℚ), 22] : List ℚ).getLast? = some b) :=
  ⟨rfl, by simp, no_warmup_C10 _ _ rfl (by simp)⟩

/-- C5: for input series [20.0, 22.0, 18.0] with λ = 0.97 (α = 0.03) the smoothed series is exactly [20.0, 20.06, 19.9982]; the latest raw value 18.0 is below the latest smoothed 19.9982, the flag is false, and the produced message contains the below-trend phrase (it appears in upper case, so containment of "below" holds after case folding). -/
theorem scenario_a_C5 :
    compute_ewma
        [("2025-10-08", some 20), ("2025-10-09", some 22), ("2025-10-10", some 18)]
        LAMBDA_DEFAULT
      = [("2025-10-08", some 20), ("2025-10-09", some (20.06 : ℚ)),
         ("2025-10-10", some (19.9982 : ℚ))] ∧
    (18 : ℚ) < 19.9982 ∧
    aboveFlag 18 (19.9982 : ℚ) = false ∧
    create_message "2025-10-10" 18 (19.9982 : ℚ) false
      = "📅 2025-10-10\nVIX: 18.00\nEWMA(λ=0.97): 20.00\n\n🟢 VIX BELOW EWMA — Favorable for short-vol trades (per Sinclair)." ∧
    strContains (create_message "2025-10-10" 18 (19.9982 : ℚ) false) "BELOW" = true ∧
    strContains (lowerStr (create_message "2025-10-10" 18 (19.9982 : ℚ) false))
      "below" = true := by
  have hmsg : create_message "2025-10-10" 18 (19.9982 : ℚ) false
      = "📅 2025-10-10\nVIX: 18.00\nEWMA(λ=0.97): 20.00\n\n🟢 VIX BELOW EWMA — Favorable for short-vol trades (per Sinclair)." := by
    rw [create_message]
    norm_num [fmt2, cents]
    rfl
  refine ⟨?_, by norm_num, by norm_num [aboveFlag], hmsg, ?_, ?_⟩
  · simp [compute_ewma, computeEwmaVals, ewmaNaGo, LAMBDA_DEFAULT]
    norm_num
  · rw [hmsg]
    rfl
  · rw [hmsg]
    rfl
